import Mathlib

/-!
Verification development for the Loan Risk Assistant repository
(`loan_risk_assistant`): a shallow embedding in Lean 4 of the data model
(`models.py`), the orchestration logic (`agent.py`) and the protocol
adapter layer (`agnostic_adapter.py`), together with theorems settling
the stated properties of the system.

Conventions of the embedding:
* Python `float` values (scores, APRs, weights) are embedded as `ℚ`.
* Python `dict`/heterogeneous values are embedded as the inductive `Val`
  (`None`, `bool`, number, `str`, `list`, `dict`), with Python truthiness
  as `Val.truthy`.
* Injected collaborators (the external tools) are embedded as function
  parameters bundled in `Collaborators`; `assess` reifies its side
  effects (governance-log calls, the document-request call) into the
  explicit `AssessOutcome` trace, in call order.
* Open borrower / loan metadata maps are embedded by the fields the code
  actually reads (`employment_type`, `income_verified`,
  `collateral_required`, `collateral_documents`, `guidance`,
  `required_documents`, `interest_band`), with Python truthiness of the
  stored values captured as `Bool` where the code only tests truthiness.
-/

namespace LoanRisk

/-- Embedding of an arbitrary Python value, as needed by the code:
`None`, booleans, numbers (as `ℚ`), strings, lists, string-keyed dicts. -/
inductive Val where
  | vnone : Val
  | vbool : Bool → Val
  | vnum : ℚ → Val
  | vstr : String → Val
  | vlist : List Val → Val
  | vdict : List (String × Val) → Val

/-- Python truthiness (`bool(v)`): `None`, `False`, `0`, `""` and empty
containers are falsy, everything else truthy. -/
def Val.truthy : Val → Bool
  | .vnone => false
  | .vbool b => b
  | .vnum q => q != 0
  | .vstr s => s != ""
  | .vlist l => !l.isEmpty
  | .vdict d => !d.isEmpty

/-- Single-quote character, built by code point to keep the sources ASCII-clean. -/
def pyQuote : String := String.singleton (Char.ofNat 39)

mutual

/-- Python `repr(v)`; containers render their elements recursively
(numbers render via `toString` on the `ℚ` embedding). -/
def Val.pyRepr : Val → String
  | .vnone => "None"
  | .vbool b => if b then "True" else "False"
  | .vnum q => toString q
  | .vstr s => pyQuote ++ s ++ pyQuote
  | .vlist l => "[" ++ pyReprList l ++ "]"
  | .vdict d => "\x7b" ++ pyReprDict d ++ "\x7d"

/-- Comma-joined `repr`s of the elements of a Python list. -/
def pyReprList : List Val → String
  | [] => ""
  | [v] => v.pyRepr
  | v :: rest => v.pyRepr ++ ", " ++ pyReprList rest

/-- Comma-joined `repr`s of the entries of a Python dict. -/
def pyReprDict : List (String × Val) → String
  | [] => ""
  | [(k, v)] => pyQuote ++ k ++ pyQuote ++ ": " ++ v.pyRepr
  | (k, v) :: rest => pyQuote ++ k ++ pyQuote ++ ": " ++ v.pyRepr ++ ", " ++ pyReprDict rest

end

/-- Python `str(v)`: the string itself for strings, `repr`-like otherwise. -/
def Val.pyStr : Val → String
  | .vstr s => s
  | v => v.pyRepr

/-- Accumulator-based splitter over the character list: `cur` holds the
(reversed) characters of the word being read. -/
def pyWordsAux : List Char → List Char → List String
  | [], cur => if cur.isEmpty then [] else [⟨cur.reverse⟩]
  | c :: cs, cur =>
    if c.isWhitespace then
      if cur.isEmpty then pyWordsAux cs [] else ⟨cur.reverse⟩ :: pyWordsAux cs []
    else pyWordsAux cs (c :: cur)

/-- Python `str.split()` with no argument: split on runs of whitespace,
discarding empty pieces. -/
def pyWords (s : String) : List String :=
  pyWordsAux s.data []

/-- Python `str.upper()` (character-wise, as the code only uppercases
ASCII reason codes). -/
def pyToUpper (s : String) : String :=
  ⟨s.data.map Char.toUpper⟩

/-- Python `str.lower()` (character-wise). -/
def pyToLower (s : String) : String :=
  ⟨s.data.map Char.toLower⟩

/-- Python `str.startswith(pre)`. -/
def pyStartsWith (s pre : String) : Bool :=
  pre.data.isPrefixOf s.data

/-! Data model, from `src/loan_risk_assistant/models.py`. -/

/-- Embedding of the `interest_band` metadata sub-dict read by
`_determine_interest_band`: each key may be absent. -/
structure InterestBandData where
  min_apr : Option ℚ
  max_apr : Option ℚ
  policy_reference : Option String
  conditions : Option (List String)
deriving DecidableEq

/-- Embedding of the open `metadata` dict of a policy chunk, restricted to the
keys the code reads: `guidance`, `required_documents` (absent embeds as
`[]`, matching `metadata.get("required_documents", [])`), `interest_band`. -/
structure Metadata where
  guidance : Option String
  required_documents : List String
  interest_band : Option InterestBandData
deriving DecidableEq

/-- `PolicyChunk` dataclass: a retrieved policy chunk. -/
structure PolicyChunk where
  chunk_id : String
  title : String
  /-- Python field `section` (renamed: `section` is a Lean keyword). -/
  sectionName : String
  text : String
  metadata : Metadata
deriving DecidableEq

/-- `PolicyChunk.quote(word_limit)`: the full text when its whitespace
word count is within the limit, else the first `word_limit` words
space-joined. -/
def PolicyChunk.quote (chunk : PolicyChunk) (word_limit : Nat) : String :=
  let words := pyWords chunk.text
  if words.length ≤ word_limit then chunk.text
  else " ".intercalate (words.take word_limit)

/-- `RiskFeature` dataclass: feature contribution from the scoring API. -/
structure RiskFeature where
  code : String
  description : String
  value : Val
  direction : String
  weight : ℚ

/-- `ReasonCode` dataclass: structured reason code from the scoring API. -/
structure ReasonCode where
  code : String
  description : String
deriving DecidableEq

/-- `RiskScoreResult` dataclass: standardised scoring output. -/
structure RiskScoreResult where
  score : ℚ
  features : List RiskFeature
  reason_codes : List ReasonCode

/-- Embedding of the open borrower attribute map, restricted to the keys
read by the orchestrator: `employment_type` (string or absent) and the
truthiness of `borrower.get("income_verified", False)`. -/
structure Borrower where
  employment_type : Option String
  income_verified : Bool
deriving DecidableEq

/-- Embedding of the open loan attribute map, restricted to the
truthiness of the two keys the orchestrator tests:
`loan.get("collateral_required")` and `loan.get("collateral_documents")`. -/
structure Loan where
  collateral_required : Bool
  collateral_documents : Bool
deriving DecidableEq

/-- `LoanApplication` dataclass; `context` entries are embedded as
string pairs (the code only interpolates them into the query string). -/
structure LoanApplication where
  application_id : String
  borrower : Borrower
  loan : Loan
  region : String
  product : String
  context : Option (List (String × String))
deriving DecidableEq

/-- `GovernanceLogRecord` dataclass: governance log response wrapper. -/
structure GovernanceLogRecord where
  event_type : String
  log_id : String
  payload_hash : Option String
deriving DecidableEq

/-- `InterestBand` dataclass: policy-backed interest band suggestion. -/
structure InterestBand where
  min_apr : ℚ
  max_apr : ℚ
  policy_reference : String
  conditions : List String
deriving DecidableEq

/-! Pure helpers of `LoanRiskAssistant`, from `src/loan_risk_assistant/agent.py`. -/

/-- `_tier_from_score`: `"Low"` below 34, `"Med"` below 67, else `"High"`. -/
def tierFromScore (score : ℚ) : String :=
  if score < 34 then "Low"
  else if score < 67 then "Med"
  else "High"

/-- `_build_policy_query`: region, product, the three fixed terms, then
`key:value` pairs from the context map, space-joined over non-empty terms. -/
def buildPolicyQuery (app : LoanApplication) : String :=
  let context_terms :=
    match app.context with
    | some ctx => ctx.map (fun kv => kv.1 ++ ":" ++ kv.2)
    | none => []
  let base_terms := [app.region, app.product, "risk tiering", "interest band", "documentation"]
  " ".intercalate ((base_terms ++ context_terms).filter (fun term => term ≠ ""))

/-- Embedding of the risk-scoring request map built by `_build_risk_payload`;
`context` is included only when the context of the application is truthy. -/
structure RiskPayload where
  application_id : String
  borrower : Borrower
  loan : Loan
  region : String
  product : String
  context : Option (List (String × String))

/-- `_build_risk_payload`: application fields, plus `context` when truthy
(`None` and the empty map are both falsy in Python). -/
def buildRiskPayload (app : LoanApplication) : RiskPayload :=
  let ctx :=
    match app.context with
    | some l => if l.isEmpty then none else some l
    | none => none
  ⟨app.application_id, app.borrower, app.loan, app.region, app.product, ctx⟩

/-- `_resolve_policy_chunks`: empty in, empty out (without calling the
lookup tool); otherwise look every retrieved chunk id up in the returned
mapping and keep the original chunk when the id is absent. The Python
dict returned by `get_policy_by_id` is embedded as an association list
queried with `List.lookup`. -/
def resolvePolicyChunks (get_policy_by_id : List String → List (String × PolicyChunk))
    (policy_chunks : List PolicyChunk) : List PolicyChunk :=
  if policy_chunks.isEmpty then []
  else
    let resolved := get_policy_by_id (policy_chunks.map (fun chunk => chunk.chunk_id))
    policy_chunks.map (fun chunk => (List.lookup chunk.chunk_id resolved).getD chunk)

/-- Entry of the policy-citations list built by `_build_policy_citations`. -/
structure Citation where
  chunk_id : String
  title : String
  sectionName : String
  quote : String
deriving DecidableEq

/-- `_build_policy_citations`: first 5 chunks, reduced to citation entries. -/
def buildPolicyCitations (policy_chunks : List PolicyChunk) : List Citation :=
  (policy_chunks.take 5).map
    (fun chunk => ⟨chunk.chunk_id, chunk.title, chunk.sectionName, chunk.quote 50⟩)

/-- Entry of the reasons list built by `_build_reasons`; the Python
`source` sub-dict is flattened to its two fields. -/
structure Reason where
  label : String
  detail : String
  source_type : String
  id_or_code : String

/-- Embedding of `feature_lookup.get(code)` where `feature_lookup` is the
dict comprehension over `risk_result.features` (later entries overwrite
earlier ones, hence the last matching feature wins). -/
def lookupFeature (features : List RiskFeature) (code : String) : Option RiskFeature :=
  features.reverse.find? (fun feature => feature.code == code)

/-- Feature-derived reason entry of `_build_reasons`: the detail gains a
direction qualifier when a feature matches the reason code. -/
def featureReason (features : List RiskFeature) (reason : ReasonCode) : Reason :=
  let detail :=
    match lookupFeature features reason.code with
    | some feature =>
      let direction := if pyToLower feature.direction == "increase" then "raised" else "reduced"
      reason.description ++ " â€” feature value " ++ feature.value.pyRepr ++ " " ++ direction ++ " risk"
    | none => reason.description
  ⟨reason.description, detail, "feature", reason.code⟩

/-- Policy-derived reason entry of `_build_reasons`, for a chunk whose
metadata contains a `guidance` key. -/
def policyReason (chunk : PolicyChunk) : Reason :=
  ⟨chunk.metadata.guidance.getD "Policy guidance", chunk.quote 50, "policy", chunk.chunk_id⟩

/-- `_build_reasons`: feature-derived entries (one per reason code, in
order), then policy-derived entries (one per chunk with `guidance`
metadata, in order), truncated to the first 8. -/
def buildReasons (risk_result : RiskScoreResult) (policy_chunks : List PolicyChunk) : List Reason :=
  ((risk_result.reason_codes.map (featureReason risk_result.features)) ++
    ((policy_chunks.filter (fun chunk => chunk.metadata.guidance.isSome)).map policyReason)).take 8

/-- Python `set.add`: the unordered `documents` set is embedded as a
duplicate-free list, so adding a present element is a no-op (the
internal order of the set is irrelevant: the result is sorted afterwards). -/
def setAdd (documents : List String) (document : String) : List String :=
  if document ∈ documents then documents else documents ++ [document]

/-- Accumulation phase of `_determine_requested_documents`: the Python
`set` of triggered document strings, embedded as a duplicate-free list
built with `setAdd`. -/
def requestedDocumentsSet (app : LoanApplication) (risk_result : RiskScoreResult)
    (policy_chunks : List PolicyChunk) : List String :=
  let d0 : List String := []
  let d1 :=
    if app.borrower.employment_type = some "self_employed" then
      setAdd d0 "Most recent 2 years of tax returns"
    else d0
  let d2 :=
    if !app.borrower.income_verified then
      setAdd d1 "Recent income verification (e.g., pay stubs or bank statements)"
    else d1
  let d3 :=
    if app.loan.collateral_required && !app.loan.collateral_documents then
      setAdd d2 "Collateral ownership evidence"
    else d2
  let d4 := risk_result.reason_codes.foldl
    (fun acc code =>
      let acc := if pyStartsWith (pyToUpper code.code) "DTI" then
          setAdd acc "Detailed debt obligation schedule"
        else acc
      if pyStartsWith (pyToUpper code.code) "CREDIT" then
        setAdd acc "Updated credit bureau report"
      else acc)
    d3
  let d5 := policy_chunks.foldl
    (fun acc chunk => chunk.metadata.required_documents.foldl setAdd acc)
    d4
  d5

/-- `_determine_requested_documents`: the accumulated document set,
sorted ascending (`sorted(documents)` embedded as an insertion sort by
`≤` on strings). -/
def determineRequestedDocuments (app : LoanApplication) (risk_result : RiskScoreResult)
    (policy_chunks : List PolicyChunk) : List String :=
  List.insertionSort (· ≤ ·) (requestedDocumentsSet app risk_result policy_chunks)

/-- Band extraction from a single chunk inside `_determine_interest_band`:
requires both APR bounds, defaults the policy reference to the chunk id
and the conditions to the empty list. -/
def bandFromChunk (chunk : PolicyChunk) : Option InterestBand :=
  match chunk.metadata.interest_band with
  | none => none
  | some band_data =>
    match band_data.min_apr, band_data.max_apr with
    | some min_apr, some max_apr =>
      some ⟨min_apr, max_apr, band_data.policy_reference.getD chunk.chunk_id,
        band_data.conditions.getD []⟩
    | _, _ => none

/-- `_determine_interest_band`: a configured resolver returning a band
wins; otherwise the first chunk supplying a complete band; else `none`. -/
def determineInterestBand
    (resolver : Option (List PolicyChunk → String → Option InterestBand))
    (risk_tier : String) (policy_chunks : List PolicyChunk) : Option InterestBand :=
  let resolver_band :=
    match resolver with
    | some r => r policy_chunks risk_tier
    | none => none
  match resolver_band with
  | some band => some band
  | none => policy_chunks.findSome? bandFromChunk

/-- Truncation toward zero, as Python `int()` applied to a number. -/
def ratTrunc (q : ℚ) : ℤ :=
  if 0 ≤ q then ⌊q⌋ else -⌊-q⌋

/-- Python `round(x, 2)` on the `ℚ` embedding: bankers rounding
(round half to even) at two decimal places. -/
def pyRound2 (q : ℚ) : ℚ :=
  let scaled := q * 100
  let fl : ℤ := ⌊scaled⌋
  let frac := scaled - fl
  let n : ℤ :=
    if frac < 1 / 2 then fl
    else if 1 / 2 < frac then fl + 1
    else if fl % 2 = 0 then fl else fl + 1
  (n : ℚ) / 100

/-- Priority order of candidate identifier keys scanned in the
document-request response inside `assess`. -/
def responseIdKeys : List String :=
  ["request_id", "id", "identifier", "response_id", "log_id"]

/-- Identifier extraction from the `request_additional_docs` response in
`assess`: only performed on a dict, first priority key with a truthy
value wins, its value passed through `str(...)`. -/
def extractToolResponseId (docs_response : Val) : Option String :=
  match docs_response with
  | .vdict d =>
    responseIdKeys.findSome?
      (fun key =>
        match List.lookup key d with
        | some value => if value.truthy then some value.pyStr else none
        | none => none)
  | _ => none

/-! Embedding of `assess`, the end-to-end pipeline of `LoanRiskAssistant`.
Side effects (governance-log calls, the optional document-request call)
are reified into an explicit trace in call order. -/

/-- Payload of the `problem_received` governance-log call. -/
def problemReceivedPayload (app : LoanApplication) : Val :=
  .vdict [("application_id", .vstr app.application_id), ("region", .vstr app.region),
    ("product", .vstr app.product), ("redactions", .vbool true)]

/-- Payload of the `retrieval_done` governance-log call. -/
def retrievalDonePayload (app : LoanApplication) (query : String)
    (policy_chunks : List PolicyChunk) : Val :=
  .vdict [("application_id", .vstr app.application_id), ("query", .vstr query),
    ("chunk_ids", .vlist (policy_chunks.map (fun chunk => .vstr chunk.chunk_id)))]

/-- Payload of the `risk_scored` governance-log call. -/
def riskScoredPayload (app : LoanApplication) (risk_result : RiskScoreResult) : Val :=
  .vdict [("application_id", .vstr app.application_id), ("risk_score", .vnum risk_result.score),
    ("reason_codes", .vlist (risk_result.reason_codes.map (fun code => .vstr code.code)))]

/-- Payload of the `docs_requested` governance-log call; an absent
response identifier is logged as `None`. -/
def docsRequestedPayload (app : LoanApplication) (requested_documents : List String)
    (tool_response_id : Option String) : Val :=
  .vdict [("application_id", .vstr app.application_id),
    ("requested_documents", .vlist (requested_documents.map Val.vstr)),
    ("tool_response_id",
      match tool_response_id with
      | some s => .vstr s
      | none => .vnone)]

/-- Key names of the user-packet payload dict, logged by `packet_composed`. -/
def userPacketPayloadKeys : List String :=
  ["application_id", "risk_score", "reasons", "requested_documents", "policy_citations",
    "interest_band"]

/-- Payload of the `packet_composed` governance-log call: only the key
names of the payload, not its values. -/
def packetComposedPayload (app : LoanApplication) : Val :=
  .vdict [("application_id", .vstr app.application_id),
    ("payload_keys", .vlist (userPacketPayloadKeys.map Val.vstr))]

/-- Embedding of the `user_packet_payload` dict handed to the packet
composer (its nested `risk_score` dict is flattened to two fields). -/
structure UserPacketPayload where
  application_id : String
  risk_score_value : ℚ
  risk_score_tier : String
  reasons : List Reason
  requested_documents : List String
  policy_citations : List Citation
  interest_band : Option InterestBand

/-- Injected collaborators of `LoanRiskAssistant.__init__`, plus the
configured `policy_top_k`. The dict returned by `get_policy_by_id` is an
association list; opaque tool responses are `Val`. -/
structure Collaborators where
  policy_docs_retriever : String → Nat → List PolicyChunk
  risk_scoring_api : RiskPayload → RiskScoreResult
  get_policy_by_id : List String → List (String × PolicyChunk)
  compose_user_packet : UserPacketPayload → Val
  request_additional_docs : List String → Val
  governance_log : String → Val → GovernanceLogRecord
  interest_policy_resolver : Option (List PolicyChunk → String → Option InterestBand)
  policy_top_k : Nat

/-- Embedding of the `risk_score` sub-dict of the response. -/
structure RiskScoreOut where
  value : ℚ
  scale : String
  tier : String
deriving DecidableEq

/-- Embedding of the `interest_rate_suggestion` sub-dict of the response. -/
structure InterestSuggestion where
  band_apr_percent : List ℚ
  basis : String
  conditions : List String
deriving DecidableEq

/-- Embedding of the `compliance` sub-dict of the response. -/
structure Compliance where
  region : String
  product : String
  policy_gap : Bool
deriving DecidableEq

/-- Embedding of the structured response dict returned by `assess`. -/
structure AssessResponse where
  application_id : String
  risk_score : RiskScoreOut
  reasons : List Reason
  policy_citations : List Citation
  requested_documents : List String
  interest_rate_suggestion : Option InterestSuggestion
  compliance : Compliance
  governance_log_ids : List String
  user_packet : Val

/-- One reified governance-log call: event type, payload, returned record. -/
structure GovCall where
  event_type : String
  payload : Val
  record : GovernanceLogRecord

/-- Result of the embedded `assess`: the structured response plus the
reified effect trace (governance-log calls in call order, and the
document-request call with its arguments and raw response, when made). -/
structure AssessOutcome where
  response : AssessResponse
  govCalls : List GovCall
  docsRequest : Option (List String × Val)

/-- `LoanRiskAssistant.assess`: the end-to-end assessment pipeline. The
`governance_ids` list is accumulated exactly as in the source (one
`log_id` appended per logging call); `govCalls` and `docsRequest`
additionally reify the calls themselves. -/
def assess (C : Collaborators) (app : LoanApplication) : AssessOutcome :=
  let p1 := problemReceivedPayload app
  let r1 := C.governance_log "problem_received" p1
  let governance_ids := [r1.log_id]
  let query := buildPolicyQuery app
  let policy_chunks := C.policy_docs_retriever query C.policy_top_k
  let p2 := retrievalDonePayload app query policy_chunks
  let r2 := C.governance_log "retrieval_done" p2
  let governance_ids := governance_ids ++ [r2.log_id]
  let risk_payload := buildRiskPayload app
  let risk_result := C.risk_scoring_api risk_payload
  let p3 := riskScoredPayload app risk_result
  let r3 := C.governance_log "risk_scored" p3
  let governance_ids := governance_ids ++ [r3.log_id]
  let resolved_policies := resolvePolicyChunks C.get_policy_by_id policy_chunks
  let policy_citations := buildPolicyCitations resolved_policies
  let risk_tier := tierFromScore risk_result.score
  let reasons := buildReasons risk_result resolved_policies
  let requested_documents := determineRequestedDocuments app risk_result resolved_policies
  let docsStep : Option (Val × Val × GovernanceLogRecord) :=
    if requested_documents.isEmpty then none
    else
      let docs_response := C.request_additional_docs requested_documents
      let tool_response_id := extractToolResponseId docs_response
      let p4 := docsRequestedPayload app requested_documents tool_response_id
      let r4 := C.governance_log "docs_requested" p4
      some (docs_response, p4, r4)
  let governance_ids := governance_ids ++
    (match docsStep with
     | some (_, _, r4) => [r4.log_id]
     | none => [])
  let interest_band := determineInterestBand C.interest_policy_resolver risk_tier resolved_policies
  let policy_gap := interest_band.isNone
  let user_packet_payload : UserPacketPayload :=
    ⟨app.application_id, risk_result.score, risk_tier, reasons, requested_documents,
      policy_citations, interest_band⟩
  let user_packet := C.compose_user_packet user_packet_payload
  let p5 := packetComposedPayload app
  let r5 := C.governance_log "packet_composed" p5
  let governance_ids := governance_ids ++ [r5.log_id]
  let response : AssessResponse :=
    ⟨app.application_id,
      ⟨risk_result.score, "0-100", risk_tier⟩,
      reasons,
      policy_citations,
      requested_documents,
      interest_band.map
        (fun band => ⟨[pyRound2 band.min_apr, pyRound2 band.max_apr],
          band.policy_reference, band.conditions⟩),
      ⟨app.region, app.product, policy_gap⟩,
      governance_ids,
      user_packet⟩
  let govCalls := [⟨"problem_received", p1, r1⟩, ⟨"retrieval_done", p2, r2⟩,
      ⟨"risk_scored", p3, r3⟩] ++
    (match docsStep with
     | some (_, p4, r4) => [⟨"docs_requested", p4, r4⟩]
     | none => []) ++
    [⟨"packet_composed", p5, r5⟩]
  ⟨response, govCalls,
    docsStep.map (fun step => (requested_documents, step.1))⟩

/-! Protocol adapter layer, from `src/loan_risk_assistant/agnostic_adapter.py`.
Handlers take a string-keyed request map and return `Except String Val`:
a raised Python exception is embedded as `Except.error` carrying the
rendering of the exception. -/

/-- Serialization of the restricted metadata model back to a `Val` dict
(the Python code passes the open `metadata` dict through unchanged). -/
def metadataToVal (m : Metadata) : Val :=
  .vdict
    ((match m.guidance with
      | some g => [("guidance", Val.vstr g)]
      | none => []) ++
     [("required_documents", .vlist (m.required_documents.map Val.vstr))] ++
     (match m.interest_band with
      | some bd =>
        [("interest_band", Val.vdict
          ((match bd.min_apr with
            | some q => [("min_apr", Val.vnum q)]
            | none => []) ++
           (match bd.max_apr with
            | some q => [("max_apr", Val.vnum q)]
            | none => []) ++
           (match bd.policy_reference with
            | some s => [("policy_reference", Val.vstr s)]
            | none => []) ++
           (match bd.conditions with
            | some l => [("conditions", Val.vlist (l.map Val.vstr))]
            | none => [])))]
      | none => []))

/-- `_policy_chunk_to_dict`. -/
def policyChunkToVal (chunk : PolicyChunk) : Val :=
  .vdict [("chunk_id", .vstr chunk.chunk_id), ("title", .vstr chunk.title),
    ("section", .vstr chunk.sectionName), ("text", .vstr chunk.text),
    ("metadata", metadataToVal chunk.metadata)]

/-- `_risk_feature_to_dict`. -/
def riskFeatureToVal (feature : RiskFeature) : Val :=
  .vdict [("code", .vstr feature.code), ("description", .vstr feature.description),
    ("value", feature.value), ("direction", .vstr feature.direction),
    ("weight", .vnum feature.weight)]

/-- `_reason_code_to_dict`. -/
def reasonCodeToVal (code : ReasonCode) : Val :=
  .vdict [("code", .vstr code.code), ("description", .vstr code.description)]

/-- `_risk_result_to_dict`. -/
def riskResultToVal (result : RiskScoreResult) : Val :=
  .vdict [("score", .vnum result.score),
    ("features", .vlist (result.features.map riskFeatureToVal)),
    ("reason_codes", .vlist (result.reason_codes.map reasonCodeToVal))]

/-- Python `int(v)`: truncating conversion for numbers and booleans,
parsing for integer-literal strings, an exception otherwise. -/
def pyInt : Val → Except String ℤ
  | .vbool b => .ok (if b then 1 else 0)
  | .vnum q => .ok (ratTrunc q)
  | .vstr s =>
    match s.toInt? with
    | some n => .ok n
    | none => .error ("ValueError: invalid literal for int with base 10: " ++ s)
  | _ => .error "TypeError: int argument must be a string or a number"

/-- Handler of `adapt_policy_docs_retriever`: `query` defaults to the
empty string and `top_k` to 5 when absent — no missing-key failure is
possible; the wrapped tool is duck-typed on the query. -/
def adaptPolicyDocsRetrieverHandler (tool : Val → ℤ → List PolicyChunk)
    (payload : List (String × Val)) : Except String Val := do
  let query := (List.lookup "query" payload).getD (.vstr "")
  let top_k ← pyInt ((List.lookup "top_k" payload).getD (.vnum 5))
  let chunks := tool query top_k
  pure (.vdict [("chunks", .vlist (chunks.map policyChunkToVal))])

/-- Handler of `adapt_risk_scoring_api`: indexes `payload["payload"]`
directly, so a missing key raises a bare `KeyError` naming the key. -/
def adaptRiskScoringApiHandler (tool : Val → RiskScoreResult)
    (payload : List (String × Val)) : Except String Val :=
  match List.lookup "payload" payload with
  | none => .error "KeyError: payload"
  | some v => .ok (riskResultToVal (tool v))

/-! Theorems. -/

/-- C1: for every numeric score `s`, the derived risk tier equals
`"Low"` iff `s < 34`, `"Med"` iff `34 ≤ s < 67`, and `"High"` iff
`s ≥ 67`; in particular `tier 34 = "Med"` and `tier 67 = "High"`. -/
theorem tier_from_score_correct (s : ℚ) :
    (tierFromScore s = "Low" ↔ s < 34) ∧
    (tierFromScore s = "Med" ↔ 34 ≤ s ∧ s < 67) ∧
    (tierFromScore s = "High" ↔ 67 ≤ s) ∧
    tierFromScore 34 = "Med" ∧ tierFromScore 67 = "High" := by
  refine ⟨?_, ?_, ?_, by decide, by decide⟩ <;>
    unfold tierFromScore <;> split_ifs with h1 h2
  · exact iff_of_true rfl h1
  · exact iff_of_false (by decide) h1
  · exact iff_of_false (by decide) (fun h => h1 (lt_of_lt_of_le h (by linarith)))
  · exact iff_of_false (by decide) (by rintro ⟨h34, -⟩; linarith)
  · exact iff_of_true rfl ⟨by linarith, h2⟩
  · exact iff_of_false (by decide) (by rintro ⟨-, h67⟩; exact h2 h67)
  · exact iff_of_false (by decide) (by intro h; linarith)
  · exact iff_of_false (by decide) (by intro h; linarith)
  · exact iff_of_true rfl (by linarith)

/-- Witness for C1: the theorem applied at the concrete score 50. -/
theorem tier_from_score_correct_witness : tierFromScore 50 = "Med" :=
  (tier_from_score_correct 50).2.1.mpr ⟨by norm_num, by norm_num⟩

/-- C7: `quote` with word limit 50 returns the text unchanged when its
whitespace word count is at most 50, else exactly the first 50 words
joined with single spaces. -/
theorem quote_truncation_correct (chunk : PolicyChunk) :
    ((pyWords chunk.text).length ≤ 50 → chunk.quote 50 = chunk.text) ∧
    (50 < (pyWords chunk.text).length →
      chunk.quote 50 = " ".intercalate ((pyWords chunk.text).take 50)) := by
  unfold PolicyChunk.quote
  constructor
  · intro h
    rw [if_pos h]
  · intro h
    rw [if_neg (by omega)]

/-- Witness for C7: the theorem applied to a concrete two-word chunk. -/
theorem quote_truncation_correct_witness :
    (pyWords "alpha beta").length ≤ 50 ∧
    (PolicyChunk.mk "c" "t" "s" "alpha beta" ⟨none, [], none⟩).quote 50 = "alpha beta" :=
  ⟨by decide,
    (quote_truncation_correct (PolicyChunk.mk "c" "t" "s" "alpha beta" ⟨none, [], none⟩)).1
      (by decide)⟩

/-- Helper: `setAdd` preserves duplicate-freeness. -/
theorem setAdd_nodup {documents : List String} (h : documents.Nodup) (document : String) :
    (setAdd documents document).Nodup := by
  unfold setAdd
  split_ifs with hx
  · exact h
  · simp [List.nodup_append, h, hx]

/-- Helper: a fold whose step preserves duplicate-freeness preserves it. -/
theorem foldl_nodup {α : Type _} (step : List String → α → List String)
    (hstep : ∀ acc a, acc.Nodup → (step acc a).Nodup) :
    ∀ (l : List α) (acc : List String), acc.Nodup → (List.foldl step acc l).Nodup := by
  intro l
  induction l with
  | nil => intro acc h; simpa using h
  | cons x xs ih => intro acc h; exact ih _ (hstep acc x h)

/-- Helper: the accumulated document set is duplicate-free. -/
theorem requestedDocumentsSet_nodup (app : LoanApplication) (risk_result : RiskScoreResult)
    (policy_chunks : List PolicyChunk) :
    (requestedDocumentsSet app risk_result policy_chunks).Nodup := by
  unfold requestedDocumentsSet
  refine foldl_nodup _ (fun acc chunk h => foldl_nodup setAdd (fun a d hd => setAdd_nodup hd d) _ _ h) _ _ ?_
  refine foldl_nodup _ (fun acc code h => ?_) _ _ ?_
  · dsimp only
    split_ifs <;> first | exact setAdd_nodup (setAdd_nodup h _) _ | exact setAdd_nodup h _ | exact h
  · split_ifs <;>
      first
        | exact setAdd_nodup (setAdd_nodup (setAdd_nodup List.nodup_nil _) _) _
        | exact setAdd_nodup (setAdd_nodup List.nodup_nil _) _
        | exact setAdd_nodup List.nodup_nil _
        | exact List.nodup_nil

/-- C2: the requested-documents list is sorted ascending and contains no
duplicates, for every application, risk result and chunk list, and hence
also in the output of every assessment. -/
theorem requested_documents_sorted_nodup (C : Collaborators) (app : LoanApplication)
    (risk_result : RiskScoreResult) (policy_chunks : List PolicyChunk) :
    List.Sorted (· ≤ ·) (determineRequestedDocuments app risk_result policy_chunks) ∧
    (determineRequestedDocuments app risk_result policy_chunks).Nodup ∧
    List.Sorted (· ≤ ·) ((assess C app).response.requested_documents) ∧
    ((assess C app).response.requested_documents).Nodup := by
  refine ⟨?_, ?_, ?_, ?_⟩ <;> simp only [assess, determineRequestedDocuments] <;>
    first
      | exact List.sorted_insertionSort _ _
      | exact (List.perm_insertionSort _ _).nodup_iff.mpr (requestedDocumentsSet_nodup _ _ _)

/-- C5: chunk resolution preserves the length and order of the retrieved
list; the `i`-th output is the canonical chunk for the `i`-th retrieved
id when the mapping contains it, else the original retrieved chunk. -/
theorem resolve_policy_chunks_correct
    (get_policy_by_id : List String → List (String × PolicyChunk))
    (policy_chunks : List PolicyChunk) :
    (resolvePolicyChunks get_policy_by_id policy_chunks).length = policy_chunks.length ∧
    ∀ i (h : i < policy_chunks.length),
      (resolvePolicyChunks get_policy_by_id policy_chunks)[i]? =
        some ((List.lookup (policy_chunks.get ⟨i, h⟩).chunk_id
          (get_policy_by_id (policy_chunks.map (fun chunk => chunk.chunk_id)))).getD
            (policy_chunks.get ⟨i, h⟩)) := by
  unfold resolvePolicyChunks
  by_cases hE : policy_chunks.isEmpty
  · rw [List.isEmpty_iff] at hE
    subst hE
    exact ⟨by simp, fun i h => absurd h (by simp)⟩
  · rw [if_neg hE]
    refine ⟨by simp, fun i h => ?_⟩
    rw [List.getElem?_map, List.getElem?_eq_getElem h]
    simp [List.get_eq_getElem]

/-- Witness for C5: the theorem applied at index 0 of a concrete
singleton retrieval whose id the lookup does not contain. -/
theorem resolve_policy_chunks_correct_witness :
    (resolvePolicyChunks (fun _ => []) [PolicyChunk.mk "c1" "T" "s" "t" ⟨none, [], none⟩])[0]? =
      some ((List.lookup (([PolicyChunk.mk "c1" "T" "s" "t" ⟨none, [], none⟩].get
          ⟨0, by decide⟩).chunk_id)
        ((fun _ => ([] : List (String × PolicyChunk)))
          ([PolicyChunk.mk "c1" "T" "s" "t" ⟨none, [], none⟩].map
            (fun chunk => chunk.chunk_id)))).getD
        ([PolicyChunk.mk "c1" "T" "s" "t" ⟨none, [], none⟩].get ⟨0, by decide⟩)) :=
  (resolve_policy_chunks_correct (fun _ => []) [PolicyChunk.mk "c1" "T" "s" "t" ⟨none, [], none⟩]).2
    0 (by decide)

/-- C6: the reasons list is the first 8 elements of the concatenation of
the feature-derived entries (one per reason code, source type
`"feature"`) and the policy-derived entries (one per chunk with
`guidance` metadata, source type `"policy"`); hence it has at most 8
entries and every feature-derived entry precedes every policy-derived
entry. -/
theorem build_reasons_capped_ordered (risk_result : RiskScoreResult)
    (policy_chunks : List PolicyChunk) :
    (buildReasons risk_result policy_chunks).length ≤ 8 ∧
    buildReasons risk_result policy_chunks =
      ((risk_result.reason_codes.map (featureReason risk_result.features)) ++
        ((policy_chunks.filter (fun chunk => chunk.metadata.guidance.isSome)).map
          policyReason)).take 8 ∧
    (∀ reason_code, (featureReason risk_result.features reason_code).source_type = "feature" ∧
      (featureReason risk_result.features reason_code).id_or_code = reason_code.code) ∧
    (∀ chunk, (policyReason chunk).source_type = "policy" ∧
      (policyReason chunk).id_or_code = chunk.chunk_id) ∧
    ∃ featPart polPart,
      buildReasons risk_result policy_chunks = featPart ++ polPart ∧
      (∀ reason ∈ featPart, reason.source_type = "feature") ∧
      (∀ reason ∈ polPart, reason.source_type = "policy") := by
  refine ⟨List.length_take_le _ _, rfl, fun reason_code => ⟨rfl, rfl⟩,
    fun chunk => ⟨rfl, rfl⟩, ?_⟩
  refine ⟨(risk_result.reason_codes.map (featureReason risk_result.features)).take 8,
    ((policy_chunks.filter (fun chunk => chunk.metadata.guidance.isSome)).map policyReason).take
      (8 - (risk_result.reason_codes.map (featureReason risk_result.features)).length),
    List.take_append_eq_append_take, ?_, ?_⟩
  · intro reason hr
    obtain ⟨reason_code, -, rfl⟩ := List.mem_map.mp (List.mem_of_mem_take hr)
    rfl
  · intro reason hr
    obtain ⟨chunk, -, rfl⟩ := List.mem_map.mp (List.mem_of_mem_take hr)
    rfl

/-- Witness for C6: the theorem applied at a concrete scoring result,
selecting the feature-entry shape conjunct at a concrete reason code. -/
theorem build_reasons_capped_ordered_witness :
    (featureReason [] (ReasonCode.mk "DTI_HIGH" "High debt ratio")).source_type = "feature" ∧
    (featureReason [] (ReasonCode.mk "DTI_HIGH" "High debt ratio")).id_or_code = "DTI_HIGH" :=
  (build_reasons_capped_ordered ⟨55, [], []⟩ []).2.2.1 (ReasonCode.mk "DTI_HIGH" "High debt ratio")

/-- Helper: `findSome?` returns the image of the first element on which
the function fires, when all earlier elements yield `none`. -/
theorem findSome_first {α β : Type _} (l : List α) (f : α → Option β) :
    ∀ (i : Nat) (h : i < l.length),
      (∀ j (hj : j < l.length), j < i → f (l.get ⟨j, hj⟩) = none) →
      ∀ b, f (l.get ⟨i, h⟩) = some b → l.findSome? f = some b := by
  induction l with
  | nil => intro i h; simp at h
  | cons x xs ih =>
    intro i h hbefore b hi
    cases i with
    | zero =>
      simp only [List.get] at hi
      simp [List.findSome?_cons, hi]
    | succ n =>
      have hx : f x = none := hbefore 0 (by simp) (Nat.succ_pos n)
      simp only [List.findSome?_cons, hx]
      exact ih n (by simpa using h)
        (fun j hj hji => hbefore (j + 1) (by simpa using hj) (by omega)) b (by simpa using hi)

/-- C3: a configured resolver returning a band wins verbatim; otherwise
the first chunk whose `interest_band` metadata has both APR bounds
supplies the band (policy reference defaulting to the chunk id,
conditions to `[]`); the interest suggestion of the output is null exactly
when no band was found, which is exactly when the policy-gap flag is
set. -/
theorem interest_band_determination :
    (∀ (r : List PolicyChunk → String → Option InterestBand) (policy_chunks : List PolicyChunk)
        (risk_tier : String) (band : InterestBand),
      r policy_chunks risk_tier = some band →
      determineInterestBand (some r) risk_tier policy_chunks = some band) ∧
    (∀ (chunk : PolicyChunk) (band_data : InterestBandData) (min_apr max_apr : ℚ),
      chunk.metadata.interest_band = some band_data →
      band_data.min_apr = some min_apr → band_data.max_apr = some max_apr →
      bandFromChunk chunk = some ⟨min_apr, max_apr,
        band_data.policy_reference.getD chunk.chunk_id, band_data.conditions.getD []⟩) ∧
    (∀ (resolver : Option (List PolicyChunk → String → Option InterestBand))
        (risk_tier : String) (policy_chunks : List PolicyChunk),
      (resolver = none ∨ ∃ r, resolver = some r ∧ r policy_chunks risk_tier = none) →
      (∀ (i : Nat) (h : i < policy_chunks.length),
        (∀ j (hj : j < policy_chunks.length), j < i →
          bandFromChunk (policy_chunks.get ⟨j, hj⟩) = none) →
        ∀ band, bandFromChunk (policy_chunks.get ⟨i, h⟩) = some band →
          determineInterestBand resolver risk_tier policy_chunks = some band) ∧
      ((∀ chunk ∈ policy_chunks, bandFromChunk chunk = none) →
        determineInterestBand resolver risk_tier policy_chunks = none)) ∧
    (∀ (C : Collaborators) (app : LoanApplication),
      ((assess C app).response.interest_rate_suggestion = none ↔
        determineInterestBand C.interest_policy_resolver
          (tierFromScore (C.risk_scoring_api (buildRiskPayload app)).score)
          (resolvePolicyChunks C.get_policy_by_id
            (C.policy_docs_retriever (buildPolicyQuery app) C.policy_top_k)) = none) ∧
      (assess C app).response.compliance.policy_gap =
        ((assess C app).response.interest_rate_suggestion).isNone) := by
  refine ⟨?_, ?_, ?_, ?_⟩
  · intro r policy_chunks risk_tier band h
    simp [determineInterestBand, h]
  · intro chunk band_data min_apr max_apr h1 h2 h3
    simp [bandFromChunk, h1, h2, h3]
  · intro resolver risk_tier policy_chunks hres
    have hrb : determineInterestBand resolver risk_tier policy_chunks =
        List.findSome? bandFromChunk policy_chunks := by
      rcases hres with rfl | ⟨r, rfl, hr⟩
      · rfl
      · simp [determineInterestBand, hr]
    constructor
    · intro i h hbefore band hi
      rw [hrb]
      exact findSome_first policy_chunks bandFromChunk i h hbefore band hi
    · intro hall
      rw [hrb]
      exact List.findSome?_eq_none_iff.mpr hall
  · intro C app
    simp only [assess]
    constructor
    · exact Option.map_eq_none'
    · exact Option.isNone_map'.symm

/-- Witness for C3: the resolver-override conjunct applied at a concrete
resolver and chunk list. -/
theorem interest_band_determination_witness :
    determineInterestBand
      (some (fun _ _ => some (InterestBand.mk 6 (17 / 2) "POL-APR-01" []))) "Med" [] =
      some (InterestBand.mk 6 (17 / 2) "POL-APR-01" []) :=
  interest_band_determination.1 (fun _ _ => some (InterestBand.mk 6 (17 / 2) "POL-APR-01" []))
    [] "Med" (InterestBand.mk 6 (17 / 2) "POL-APR-01" []) rfl

/-- Demonstration collaborators used by the concrete witnesses below. -/
def demoCollaborators : Collaborators :=
  ⟨fun _ _ => [], fun _ => ⟨10, [], []⟩, fun _ => [], fun _ => .vnone,
    fun _ => .vdict [("request_id", .vstr "doc-req-1")],
    fun event _ => ⟨event, "log-1", none⟩, none, 5⟩

/-- Demonstration application with no document trigger (income verified,
no collateral, employed, no reason codes from the demo scorer). -/
def demoAppNoDocs : LoanApplication :=
  ⟨"APP-001", ⟨none, true⟩, ⟨false, false⟩, "NY", "smb_term", none⟩

/-- Demonstration application triggering the income-verification
document request. -/
def demoAppDocs : LoanApplication :=
  ⟨"APP-002", ⟨none, false⟩, ⟨false, false⟩, "NY", "smb_term", none⟩

/-- C4: the governance-log id list contains exactly the log ids returned
by the governance-logger calls, in call order (`problem_received`,
`retrieval_done`, `risk_scored`, optionally `docs_requested`,
`packet_composed`): 4 entries without a document request, 5 with one. -/
theorem governance_log_ids_in_call_order (C : Collaborators) (app : LoanApplication) :
    (assess C app).response.governance_log_ids =
      ((assess C app).govCalls).map (fun call => call.record.log_id) ∧
    (∀ call ∈ (assess C app).govCalls,
      call.record = C.governance_log call.event_type call.payload) ∧
    ((assess C app).govCalls).map (fun call => call.event_type) =
      (if (assess C app).response.requested_documents.isEmpty then
        ["problem_received", "retrieval_done", "risk_scored", "packet_composed"]
      else
        ["problem_received", "retrieval_done", "risk_scored", "docs_requested",
          "packet_composed"]) ∧
    (assess C app).response.governance_log_ids.length =
      (if (assess C app).response.requested_documents.isEmpty then 4 else 5) := by
  by_cases hd : (determineRequestedDocuments app (C.risk_scoring_api (buildRiskPayload app))
      (resolvePolicyChunks C.get_policy_by_id
        (C.policy_docs_retriever (buildPolicyQuery app) C.policy_top_k))).isEmpty <;>
    refine ⟨?_, ?_, ?_, ?_⟩ <;>
      simp [assess, hd]

/-- Witness for C4: the theorem applied at the demonstration
collaborators and the no-documents application, with the membership
conjunct discharged at the first logged call. -/
theorem governance_log_ids_in_call_order_witness :
    ((assess demoCollaborators demoAppNoDocs).response.governance_log_ids.length =
      (if (assess demoCollaborators demoAppNoDocs).response.requested_documents.isEmpty
        then 4 else 5)) ∧
    (assess demoCollaborators demoAppNoDocs).response.governance_log_ids.length = 4 := by
  have h := (governance_log_ids_in_call_order demoCollaborators demoAppNoDocs).2.2.2
  exact ⟨h, by rw [h, if_pos (by decide)]⟩

/-- C8: when the requested-documents list is non-empty the
document-request collaborator is invoked with exactly that (sorted)
list, and the identifier logged in the `docs_requested` payload is the
extraction result over the response: the `str` of the value of the first
key among `request_id`, `id`, `identifier`, `response_id`, `log_id`
whose value is present and non-empty (truthy), and null when no such key
exists or the response is not a map. -/
theorem docs_request_identifier_spec (C : Collaborators) (app : LoanApplication) :
    ((assess C app).response.requested_documents ≠ [] →
      (assess C app).docsRequest = some ((assess C app).response.requested_documents,
        C.request_additional_docs ((assess C app).response.requested_documents)) ∧
      (∃ call ∈ (assess C app).govCalls, call.event_type = "docs_requested" ∧
        call.payload = docsRequestedPayload app ((assess C app).response.requested_documents)
          (extractToolResponseId
            (C.request_additional_docs ((assess C app).response.requested_documents))))) ∧
    ((assess C app).response.requested_documents = [] → (assess C app).docsRequest = none) ∧
    (∀ v : Val, (∀ d, v ≠ .vdict d) → extractToolResponseId v = none) ∧
    (∀ d, extractToolResponseId (.vdict d) = none ↔
      ∀ key ∈ responseIdKeys, ∀ value, List.lookup key d = some value →
        value.truthy = false) ∧
    (∀ d (i : Nat) (hi : i < responseIdKeys.length) (value : Val),
      (∀ j (hj : j < responseIdKeys.length), j < i →
        ∀ w, List.lookup (responseIdKeys.get ⟨j, hj⟩) d = some w → w.truthy = false) →
      List.lookup (responseIdKeys.get ⟨i, hi⟩) d = some value → value.truthy = true →
      extractToolResponseId (.vdict d) = some value.pyStr) := by
  refine ⟨?_, ?_, ?_, ?_, ?_⟩
  · intro hne
    have hne2 : (determineRequestedDocuments app (C.risk_scoring_api (buildRiskPayload app))
        (resolvePolicyChunks C.get_policy_by_id
          (C.policy_docs_retriever (buildPolicyQuery app) C.policy_top_k))) ≠ [] := hne
    have hie : ¬((determineRequestedDocuments app (C.risk_scoring_api (buildRiskPayload app))
        (resolvePolicyChunks C.get_policy_by_id
          (C.policy_docs_retriever (buildPolicyQuery app) C.policy_top_k))).isEmpty = true) :=
      fun h => hne2 (List.isEmpty_iff.mp h)
    constructor
    · simp [assess, hie]
    · refine ⟨⟨"docs_requested",
        docsRequestedPayload app ((assess C app).response.requested_documents)
          (extractToolResponseId
            (C.request_additional_docs ((assess C app).response.requested_documents))),
        C.governance_log "docs_requested"
          (docsRequestedPayload app ((assess C app).response.requested_documents)
            (extractToolResponseId
              (C.request_additional_docs ((assess C app).response.requested_documents))))⟩,
        ?_, rfl, rfl⟩
      simp [assess, hie]
  · intro hempty
    have hie : (determineRequestedDocuments app (C.risk_scoring_api (buildRiskPayload app))
        (resolvePolicyChunks C.get_policy_by_id
          (C.policy_docs_retriever (buildPolicyQuery app) C.policy_top_k))).isEmpty = true :=
      List.isEmpty_iff.mpr (by simpa only [assess] using hempty)
    simp [assess, hie]
  · intro v hv
    cases v with
    | vdict d => exact absurd rfl (hv d)
    | vnone => rfl
    | vbool b => rfl
    | vnum q => rfl
    | vstr s => rfl
    | vlist l => rfl
  · intro d
    simp only [extractToolResponseId]
    rw [List.findSome?_eq_none_iff]
    constructor
    · intro H key hk value hv
      have h2 := H key hk
      rw [hv] at h2
      by_cases t : value.truthy
      · simp [t] at h2
      · simpa using t
    · intro H key hk
      cases hlv : List.lookup key d with
      | none => simp
      | some value => simp [H key hk value hlv]
  · intro d i hi value hbefore hlookup htruthy
    simp only [extractToolResponseId]
    refine findSome_first responseIdKeys _ i hi (fun j hj hji => ?_) value.pyStr ?_
    · cases hlv : List.lookup (responseIdKeys.get ⟨j, hj⟩) d with
      | none => simp
      | some w => simp [hbefore j hj hji w hlv]
    · rw [hlookup]
      simp [htruthy]

/-- Witness for C8: the theorem applied at the demonstration
collaborators and the document-triggering application, with the
non-emptiness hypothesis discharged by evaluation. -/
theorem docs_request_identifier_spec_witness :
    (assess demoCollaborators demoAppDocs).response.requested_documents ≠ [] ∧
    (assess demoCollaborators demoAppDocs).docsRequest =
      some ((assess demoCollaborators demoAppDocs).response.requested_documents,
        demoCollaborators.request_additional_docs
          ((assess demoCollaborators demoAppDocs).response.requested_documents)) :=
  ⟨by decide, ((docs_request_identifier_spec demoCollaborators demoAppDocs).1 (by decide)).1⟩

/-- C10: when the policy retriever returns no chunks, the assessment is
independent of the policy-by-id collaborator (that collaborator is never
invoked) and the resolved policy chunk list is empty. -/
theorem empty_retrieval_no_policy_lookup (C : Collaborators)
    (g₁ g₂ : List String → List (String × PolicyChunk)) (app : LoanApplication)
    (h : C.policy_docs_retriever (buildPolicyQuery app) C.policy_top_k = []) :
    assess ⟨C.policy_docs_retriever, C.risk_scoring_api, g₁, C.compose_user_packet,
        C.request_additional_docs, C.governance_log, C.interest_policy_resolver,
        C.policy_top_k⟩ app =
      assess ⟨C.policy_docs_retriever, C.risk_scoring_api, g₂, C.compose_user_packet,
        C.request_additional_docs, C.governance_log, C.interest_policy_resolver,
        C.policy_top_k⟩ app ∧
    resolvePolicyChunks C.get_policy_by_id
      (C.policy_docs_retriever (buildPolicyQuery app) C.policy_top_k) = [] := by
  constructor
  · simp [assess, resolvePolicyChunks, h]
  · simp [resolvePolicyChunks, h]

/-- Witness for C10: the theorem applied at the demonstration
collaborators (whose retriever returns no chunks) and two distinct
policy-by-id collaborators. -/
theorem empty_retrieval_no_policy_lookup_witness :
    assess ⟨demoCollaborators.policy_docs_retriever, demoCollaborators.risk_scoring_api,
        (fun _ => []), demoCollaborators.compose_user_packet,
        demoCollaborators.request_additional_docs, demoCollaborators.governance_log,
        demoCollaborators.interest_policy_resolver, demoCollaborators.policy_top_k⟩
        demoAppNoDocs =
      assess ⟨demoCollaborators.policy_docs_retriever, demoCollaborators.risk_scoring_api,
        (fun _ => [("c1", PolicyChunk.mk "c1" "T" "s" "t" ⟨none, [], none⟩)]),
        demoCollaborators.compose_user_packet, demoCollaborators.request_additional_docs,
        demoCollaborators.governance_log, demoCollaborators.interest_policy_resolver,
        demoCollaborators.policy_top_k⟩ demoAppNoDocs :=
  (empty_retrieval_no_policy_lookup demoCollaborators (fun _ => [])
    (fun _ => [("c1", PolicyChunk.mk "c1" "T" "s" "t" ⟨none, [], none⟩)])
    demoAppNoDocs rfl).1

/-- C9 counterexample: the risk-scoring adapter invoked on a request map
lacking its required `payload` key fails with a bare `KeyError` whose
message does not contain the tool name `risk_scoring_api`, so the
adapter layer does not produce errors naming both the missing key and
the tool. -/
theorem adapter_missing_key_counterexample :
    adaptRiskScoringApiHandler (fun _ => ⟨0, [], []⟩) [] = Except.error "KeyError: payload" ∧
    ¬("risk_scoring_api".data <:+: "KeyError: payload".data) :=
  ⟨rfl, by decide⟩

/-- C9 (amended): an adapter that indexes a required key directly
(`risk_scoring_api` and its `payload` key) fails on a missing key with a
`KeyError` naming the missing key but not the tool, while the
policy-docs-retriever adapter has no required keys at all: it silently
substitutes the defaults (empty query, top-k 5) and succeeds. -/
theorem adapter_missing_key_amended :
    (∀ (tool : Val → RiskScoreResult) (payload : List (String × Val)),
      List.lookup "payload" payload = none →
      adaptRiskScoringApiHandler tool payload = Except.error "KeyError: payload" ∧
      ("payload".data <:+: "KeyError: payload".data)) ∧
    (∀ tool : Val → ℤ → List PolicyChunk,
      adaptPolicyDocsRetrieverHandler tool [] =
        Except.ok (.vdict [("chunks", .vlist ((tool (.vstr "") 5).map policyChunkToVal))])) := by
  constructor
  · intro tool payload h
    constructor
    · unfold adaptRiskScoringApiHandler
      rw [h]
    · decide
  · intro tool
    rfl

/-- Witness for the amended C9: the theorem applied at a concrete tool
and the empty request map. -/
theorem adapter_missing_key_amended_witness :
    List.lookup "payload" ([] : List (String × Val)) = none ∧
    adaptRiskScoringApiHandler (fun _ => ⟨55, [], []⟩) [] = Except.error "KeyError: payload" :=
  ⟨rfl, (adapter_missing_key_amended.1 (fun _ => ⟨55, [], []⟩) [] rfl).1⟩

end LoanRisk
